import Mathlib

/-!
Shallow embedding of the microscope-metrics sample framework
(`src/microscopemetrics/samples/__init__.py` and
`src/microscopemetrics/samples/field_illum.py`).

Numpy arrays are modelled as a flat row-major buffer together with a shape
list (this is exactly what a C-contiguous numpy array is); element values are
rationals, so integer and floating payload values are represented exactly.
Python exceptions are modelled by an `Except` monad with one constructor per
exception class raised by the code.  The parts of the repository that are only
called here but whose definition file is not part of the sources (the
`Analysis` base class and `model.Table`) are modelled from the specification
and marked as such in their doc comments.
-/

namespace MicroscopeMetrics

/-! ## Generic list helpers (association lists, chunking, indexing) -/

/-- First-match lookup in an association list, as a Python dict read `d[k]`. -/
def lookupStr {α : Type} (d : List (String × α)) (k : String) : Option α :=
  match d with
  | [] => none
  | kv :: rest => if kv.1 = k then some kv.2 else lookupStr rest k

/-- Python dict assignment `d[k] = v`: replace the value in place when the key
is present (insertion order is preserved), append otherwise. -/
def dictSet {α : Type} (d : List (String × α)) (k : String) (v : α) :
    List (String × α) :=
  match d with
  | [] => [(k, v)]
  | kv :: rest =>
    if kv.1 = k then (k, v) :: rest else kv :: dictSet rest k v

/-- Row-major unflattening of a buffer into `n` rows of `c` entries each. -/
def unflatten {α : Type} (buf : List α) : Nat → Nat → List (List α)
  | 0, _ => []
  | n + 1, c => buf.take c :: unflatten (buf.drop c) n c

/-- Resolve a Python sequence index: negative indices count from the end. -/
def resolveIdx (len : Nat) (i : Int) : Nat :=
  (if i < 0 then i + len else i).toNat

/-- Two-dimensional read `img[r, c]` with Python negative-index wrapping.
Out-of-range reads (which numpy would reject) default to `0`; every access
performed by the embedded code is in range. -/
def pyIndex2 (img : List (List Rat)) (r c : Int) : Rat :=
  ((img.getD (resolveIdx img.length r) []).getD
    (resolveIdx (img.headD []).length c) 0)

/-- Coordinates, within row `i` starting at column `j`, of the row entries
satisfying `p` (left-to-right scan). -/
def rowCoords (p : Rat → Bool) (i : Nat) : Nat → List Rat → List (Nat × Nat)
  | _, [] => []
  | j, v :: vs =>
    if p v then (i, j) :: rowCoords p i (j + 1) vs
    else rowCoords p i (j + 1) vs

/-- Row-major scan of the rows of `img` starting at row index `i`. -/
def coordsWhereFrom (p : Rat → Bool) : Nat → List (List Rat) → List (Nat × Nat)
  | _, [] => []
  | i, row :: rest => rowCoords p i 0 row ++ coordsWhereFrom p (i + 1) rest

/-- Row-major coordinates of the entries of `img` satisfying `p`
(the model of `np.where`-style scans and of binary foreground masks). -/
def coordsWhere (p : Rat → Bool) (img : List (List Rat)) : List (Nat × Nat) :=
  coordsWhereFrom p 0 img

/-! ## Python-level numeric helpers -/

/-- Round-half-to-even on rationals: the rounding used both by Python 3
`round` and by `np.round` / `np.around`. -/
def roundHalfEven (q : Rat) : Int :=
  let f := q.floor
  let r := q - f
  if r < 1/2 then f
  else if 1/2 < r then f + 1
  else if f % 2 = 0 then f else f + 1

/-- Elementwise `np.round(x)` (returns a value of the same kind). -/
def npRound (q : Rat) : Rat := (roundHalfEven q : Rat)

/-- Elementwise `np.around(x, 2)`. -/
def npAround2 (q : Rat) : Rat := (roundHalfEven (q * 100) : Rat) / 100

/-- Maximum of a list of rationals (total helper; `np.max` raising on an
empty input is modelled separately by `pymax`). -/
def listMax : List Rat → Rat
  | [] => 0
  | x :: xs => xs.foldl max x

/-- Model of `np.arange(a, b, 1)` over integers. -/
def arangeZ (a b : Int) : List Int :=
  (List.range (b - a).toNat).map (fun i => a + i)

/-! ## Python exceptions -/

/-- Exceptions raised by the embedded code.  Each constructor corresponds to
one exception class appearing in the sources or in the specification of the
requirement registry. -/
inductive PyErr where
  | valueError (msg : String)
  | notImplementedError (msg : String)
  | typeError (msg : String)
  | indexError
  | duplicateRequirement (name : String)
  | unknownRequirement (name : String)
  | requirementUnmet (name : String)
deriving DecidableEq, Repr

/-- Model of `np.max` on the flattened buffer: numpy raises `ValueError` on a
zero-size reduction. -/
def pymax (l : List Rat) : Except PyErr Rat :=
  match l with
  | [] => .error (.valueError
      "zero-size array to reduction operation maximum which has no identity")
  | x :: xs => .ok (xs.foldl max x)

/-- Python sequence read `l[i]` for a non-negative index: raises `IndexError`
when out of range. -/
def pyGet {α : Type} (l : List α) (i : Nat) : Except PyErr α :=
  match l.get? i with
  | some v => .ok v
  | none => .error .indexError

/-! ## Schema objects (microscopemetrics_schema datamodel) -/

/-- Per-axis size descriptor `mm_schema.PixelSeries(values=n)`. -/
structure PixelSeries where
  values : Nat
deriving DecidableEq, Repr

/-- Per-axis size descriptor `mm_schema.TimeSeries(values=n)`. -/
structure TimeSeries where
  values : Nat
deriving DecidableEq, Repr

/-- Per-axis size descriptor `mm_schema.ChannelSeries(values=n)`. -/
structure ChannelSeries where
  values : Nat
deriving DecidableEq, Repr

/-- Model of `mm_schema.ImageMask`: a 2D boolean mask with a flattened buffer. -/
structure ImageMask where
  name : Option String
  description : Option String
  image_url : Option String
  source_image_url : Option String
  data : List Bool
  y : PixelSeries
  x : PixelSeries
deriving DecidableEq, Repr

/-- Model of `mm_schema.Image2D`: a 2D image with a flattened buffer. -/
structure Image2D where
  name : Option String
  description : Option String
  image_url : Option String
  source_image_url : Option String
  data : List Rat
  y : PixelSeries
  x : PixelSeries
deriving DecidableEq, Repr

/-- Model of `mm_schema.Image5D`: a 5D image with a flattened buffer and one size
descriptor per axis in the order t, z, y, x, c. -/
structure Image5D where
  name : Option String
  description : Option String
  image_url : Option String
  source_image_url : Option String
  data : List Rat
  t : TimeSeries
  z : PixelSeries
  y : PixelSeries
  x : PixelSeries
  c : ChannelSeries
deriving DecidableEq, Repr

/-- Model of `mm_schema.ImageInline`: the common supertype of the two inlined image
kinds the converter can produce. -/
inductive ImageInline where
  | image5D (i : Image5D)
  | image2D (i : Image2D)
deriving DecidableEq, Repr

/-- One column of `mm_schema.TableAsDict`: `{"name": k, "values": vs}`. -/
structure DictColumn (α : Type) where
  name : String
  values : List α
deriving DecidableEq, Repr

/-- Model of `mm_schema.TableAsDict`: a named list of columns. -/
structure TableAsDict (α : Type) where
  name : Option String
  description : Option String
  columns : List (DictColumn α)
deriving DecidableEq, Repr

/-! ## Numpy arrays -/

/-- The dtypes distinguished by the converters: `bool`, `np.uint8`, and two
representatives of every other dtype. -/
inductive Dtype where
  | bool
  | uint8
  | int32
  | float64
deriving DecidableEq, Repr

/-- A C-contiguous numpy array: a dtype, a shape, and the row-major buffer.
Every array numpy can build satisfies `data.length = shape.prod` (the
`NDArray.wf` predicate below), and a `bool` array stores only `0`/`1`
values; theorems take these numpy invariants as hypotheses where they
matter. -/
structure NDArray where
  dtype : Dtype
  shape : List Nat
  data : List Rat
deriving DecidableEq, Repr

/-- The numpy invariant relating buffer and shape: the buffer holds exactly
one value per position of the shape grid. -/
def NDArray.wf (a : NDArray) : Prop := a.data.length = a.shape.prod

/-- Attribute `array.ndim`. -/
def NDArray.ndim (a : NDArray) : Nat := a.shape.length

/-- Conversion `array.astype(bool)`: nonzero entries become `True`.  For a `uint8`
source this conversion never raises, so the `try/except ValueError` guard in
the source is unreachable and has no counterpart here. -/
def astypeBool (a : NDArray) : NDArray where
  dtype := Dtype.bool
  shape := a.shape
  data := a.data.map (fun v => if v ≠ 0 then 1 else 0)

/-- A 2D bool numpy array of shape `(m.length, c)` whose rows are the rows
of `m` (`True` stored as `1`, `False` as `0`, row-major).  Rectangularity of
`m` with `c` columns per row is assumed as a hypothesis where needed. -/
def fromBoolMatrix (m : List (List Bool)) (c : Nat) : NDArray where
  dtype := Dtype.bool
  shape := [m.length, c]
  data := (m.map (fun row => row.map (fun b => if b then (1 : Rat) else 0))).flatten

/-! ## Schema conversion layer (`samples/__init__.py`) -/

/-- Function `numpy_to_inlined_mask`: converts a bool numpy array to an inlined mask.
Raises `ValueError` when the array is not 2D; coerces `uint8` arrays to bool;
raises `ValueError` when the dtype is (still) not bool. -/
def numpy_to_inlined_mask (array : NDArray) (name : Option String)
    (description : Option String) (image_url : Option String)
    (source_image_url : Option String) : Except PyErr ImageMask :=
  if array.ndim ≠ 2 then .error (.valueError "Input array should be 2D")
  else
    let array :=
      if array.dtype ≠ Dtype.bool ∧ array.dtype = Dtype.uint8 then
        astypeBool array
      else array
    if array.dtype ≠ Dtype.bool then
      .error (.valueError "Input array should be of type bool")
    else
      .ok { name := name, description := description, image_url := image_url,
            source_image_url := source_image_url,
            data := array.data.map (fun v => v ≠ 0),
            y := ⟨array.shape.getD 0 0⟩, x := ⟨array.shape.getD 1 0⟩ }

/-- Message of the `NotImplementedError` raised by `numpy_to_inlined_image`
for an unsupported dimensionality: the offending `ndim` is interpolated into
the message. -/
def unsupportedDimMsg (ndim : Nat) : String :=
  "Array of dimension " ++ toString ndim ++ " is not supported by this function"

/-- Function `numpy_to_inlined_image`: converts a numpy array to an inlined image.
A 5D array yields `Image5D` with axes (t, z, y, x, c) read from the shape in
that order; a 2D array yields `Image2D` with axes (y, x); anything else
raises `NotImplementedError` carrying the offending dimensionality. -/
def numpy_to_inlined_image (array : NDArray) (name : Option String)
    (description : Option String) (image_url : Option String)
    (source_image_url : Option String) : Except PyErr ImageInline :=
  if array.ndim = 5 then
    .ok (.image5D
      { name := name, description := description, image_url := image_url,
        source_image_url := source_image_url, data := array.data,
        t := ⟨array.shape.getD 0 0⟩, z := ⟨array.shape.getD 1 0⟩,
        y := ⟨array.shape.getD 2 0⟩, x := ⟨array.shape.getD 3 0⟩,
        c := ⟨array.shape.getD 4 0⟩ })
  else if array.ndim = 2 then
    .ok (.image2D
      { name := name, description := description, image_url := image_url,
        source_image_url := source_image_url, data := array.data,
        y := ⟨array.shape.getD 0 0⟩, x := ⟨array.shape.getD 1 0⟩ })
  else
    .error (.notImplementedError (unsupportedDimMsg array.ndim))

/-- Function `dict_to_inlined_table`: one named column per dictionary entry, in the
iteration (insertion) order of the dictionary; since the keys of a Python
dict are unique, the comprehension over `dictionary.keys()` reading
`dictionary[k]` maps each entry to its own column.  No length check of any
kind is performed. -/
def dict_to_inlined_table {α : Type} (dictionary : List (String × List α))
    (name : Option String) (description : Option String) : TableAsDict α :=
  { name := name, description := description,
    columns := dictionary.map (fun kv => { name := kv.1, values := kv.2 }) }

/-! ## Analysis type registries (`samples/__init__.py`) -/

/-- A Python class object: its `__name__` plus an identity tag so that two
distinct classes may share a `__name__`. -/
structure PyClass where
  name : String
  id : Nat
deriving DecidableEq, Repr

/-- The three module-level registry dictionaries. -/
structure Registries where
  image : List (String × PyClass)
  dataset : List (String × PyClass)
  progression : List (String × PyClass)
deriving DecidableEq, Repr

/-- Decorator `register_image_analysis`: stores the class in the image-level registry
under its `__name__` and returns the class unchanged. -/
def register_image_analysis (cls : PyClass) (s : Registries) :
    PyClass × Registries :=
  (cls, { s with image := dictSet s.image cls.name cls })

/-- Decorator `register_dataset_analysis`: same, for the dataset-level registry. -/
def register_dataset_analysis (cls : PyClass) (s : Registries) :
    PyClass × Registries :=
  (cls, { s with dataset := dictSet s.dataset cls.name cls })

/-- Decorator `register_progression_analysis`: same, for the progression-level
registry. -/
def register_progression_analysis (cls : PyClass) (s : Registries) :
    PyClass × Registries :=
  (cls, { s with progression := dictSet s.progression cls.name cls })

/-! ## Table payload values and output artifacts -/

/-- Python values appearing inside the table payloads built by the
field-illumination analysis: ints, exact numerics, strings, tuples, lists,
dicts and pandas DataFrames (a DataFrame built from a 2D array is kept as its
rows). -/
inductive PyVal where
  | int (n : Int)
  | rat (q : Rat)
  | str (s : String)
  | tup (a b : PyVal)
  | list (xs : List PyVal)
  | dict (entries : List (String × PyVal))
  | dataFrame (rows : List (List Rat))

/-- Modelled from the spec: `model.Table`, the table-shaped schema object an
analysis appends to its output (its defining module is not among the
sources; §3 "Schema Object" and the `model.Table(name=..., description=...,
table=...)` call sites fix its fields). -/
structure ModelTable where
  name : String
  description : String
  table : PyVal

/-- Modelled from the spec: the kinds of schema objects an output container
may hold (§3: Image, Mask or Table). -/
inductive SchemaObject where
  | table (t : ModelTable)
  | image (i : ImageInline)
  | mask (m : ImageMask)

/-! ## Requirement registry and analysis state

The `Analysis` base class driving `field_illum.py` is not among the source
files (only `AnalysisMixin` is), so the registry operations below are
modelled from the specification, §3 "Requirement Descriptor" and §4.2
"Requirement Registry". -/

/-- Values bound to requirements: the bulk payload of a data requirement is
a 2D numeric array, metadata values are scalars. -/
inductive PyData where
  | array2D (m : List (List Rat))
  | intVal (n : Int)
deriving DecidableEq, Repr

/-- Modelled from the spec: a requirement descriptor (§3): name, description,
type tag, optional units, optionality flag and optional default. -/
structure Requirement where
  name : String
  description : String
  data_type : String
  units : Option String
  optional : Bool
  default : Option PyData
deriving DecidableEq, Repr

/-- Modelled from the spec: the state of one analysis instance (§2, §3): the
declared data and metadata requirement descriptors, the caller-supplied
bindings of each namespace, and the output container. -/
structure AnalysisState where
  output_description : String
  data_requirements : List Requirement
  metadata_requirements : List Requirement
  data_bindings : List (String × PyData)
  metadata_bindings : List (String × PyData)
  output : List SchemaObject

/-- Modelled from the spec: `add_data_requirement` (§4.2) registers a
descriptor in the data namespace; duplicate names in the same namespace are
rejected. -/
def add_data_requirement (s : AnalysisState) (r : Requirement) :
    Except PyErr AnalysisState :=
  if (s.data_requirements.map Requirement.name).contains r.name then
    .error (.duplicateRequirement r.name)
  else .ok { s with data_requirements := s.data_requirements ++ [r] }

/-- Modelled from the spec: `add_metadata_requirement` (§4.2), identical to
`add_data_requirement` for the metadata namespace. -/
def add_metadata_requirement (s : AnalysisState) (r : Requirement) :
    Except PyErr AnalysisState :=
  if (s.metadata_requirements.map Requirement.name).contains r.name then
    .error (.duplicateRequirement r.name)
  else .ok { s with metadata_requirements := s.metadata_requirements ++ [r] }

/-- Modelled from the spec: `bind` (§4.2) associates a caller-supplied value
with a declared requirement name, the data namespace taking precedence;
binding an undeclared name fails, and rebinding overwrites (last bind
wins). -/
def bindRequirement (s : AnalysisState) (name : String) (v : PyData) :
    Except PyErr AnalysisState :=
  if (s.data_requirements.map Requirement.name).contains name then
    .ok { s with data_bindings := dictSet s.data_bindings name v }
  else if (s.metadata_requirements.map Requirement.name).contains name then
    .ok { s with metadata_bindings := dictSet s.metadata_bindings name v }
  else .error (.unknownRequirement name)

/-- Modelled from the spec: `list_unmet_requirements` (§4.2) returns, in
declaration order and data namespace first, the name of every non-optional
requirement that has neither a bound value nor a default. -/
def list_unmet_requirements (s : AnalysisState) : List String :=
  ((s.data_requirements.filter (fun r =>
      !r.optional && (lookupStr s.data_bindings r.name).isNone
        && r.default.isNone)).map Requirement.name)
    ++ ((s.metadata_requirements.filter (fun r =>
      !r.optional && (lookupStr s.metadata_bindings r.name).isNone
        && r.default.isNone)).map Requirement.name)

/-- Modelled from the spec: `get_data_values` (§4.2) returns the bound value
if present, else the declared default, else fails. -/
def get_data_values (s : AnalysisState) (name : String) :
    Except PyErr PyData :=
  match lookupStr s.data_bindings name with
  | some v => .ok v
  | none =>
    match s.data_requirements.find? (fun r => r.name = name) with
    | some r =>
      match r.default with
      | some d => .ok d
      | none => .error (.requirementUnmet name)
    | none => .error (.unknownRequirement name)

/-- Method `AnalysisMixin.validate_requirements` (from the sources, not modelled):
it logs "Validating requirements..." and returns `True` unconditionally; the
body carries a TODO and performs no check. -/
def validate_requirements (_s : AnalysisState) : Bool :=
  true

/-! ## Field-illumination analysis helpers (`samples/field_illum.py`) -/

/-- Body of the Bresenham loop of `skimage.draw.line` (`for i in range(dc)`).
After the steepness swap the loop invariant `dr ≤ dc` keeps the accumulator
`d` below `2 * dc` at the head of each iteration, so the inner
`while d >= 0: r += sr; d -= 2 * dc` executes at most once and is rendered
as a conditional step. -/
def bresLoop (sr sc : Int) (dr dc : Nat) (steep : Bool) :
    Nat → Int → Int → Int → List (Int × Int)
  | 0, _, _, _ => []
  | n + 1, r, c, d =>
    (if steep then (c, r) else (r, c)) ::
      (let r2 := if 0 ≤ d then r + sr else r
       let d2 := if 0 ≤ d then d - 2 * (dc : Int) else d
       bresLoop sr sc dr dc steep n r2 (c + sc) (d2 + 2 * (dr : Int)))

/-- Model of `skimage.draw.line(r0, c0, r1, c1)`: the integer Bresenham line including
both endpoints, in row/column coordinates. -/
def drawLine (r0 c0 r1 c1 : Int) : List (Int × Int) :=
  let dr0 := (r1 - r0).natAbs
  let dc0 := (c1 - c0).natAbs
  let sc0 : Int := if 0 < c1 - c0 then 1 else -1
  let sr0 : Int := if 0 < r1 - r0 then 1 else -1
  if dr0 > dc0 then
    bresLoop sc0 sr0 dc0 dr0 true dr0 c0 r0 (2 * (dc0 : Int) - dr0)
      ++ [(r1, c1)]
  else
    bresLoop sr0 sc0 dr0 dc0 false dc0 r0 c0 (2 * (dr0 : Int) - dc0)
      ++ [(r1, c1)]

/-- Function `get_pixel_values_of_line`: the image values along the Bresenham line
from `(x0, y0)` to `(xf, yf)` (row index first, as in the source). -/
def get_pixel_values_of_line (img : List (List Rat)) (x0 y0 xf yf : Int) :
    List Rat :=
  (drawLine x0 y0 xf yf).map (fun rc => pyIndex2 img rc.1 rc.2)

/-- Function `get_x_axis`: centered x-axis values for an intensity plot; Python 3
`round` (half to even) on both bounds, then the zero entry is removed. -/
def get_x_axis (y_axis : List Rat) : List Int :=
  let nb_pixels := y_axis.length
  let x_axis := arangeZ (roundHalfEven (-(nb_pixels : Rat) / 2))
    (roundHalfEven ((nb_pixels : Rat) / 2 + 1))
  x_axis.filter (fun v => v ≠ 0)

/-- Pure value of `get_norm_intensity_matrix`: every pixel scaled by the
maximum intensity to a percentage and rounded (`np.round`), wrapped in a
DataFrame. -/
def normIntensityMatrix (img : List (List Rat)) : List (List Rat) :=
  img.map (fun row => row.map (fun v => npRound (v / listMax img.flatten * 100)))

/-- Function `get_norm_intensity_matrix`: raises only through `np.max` on a zero-size
image. -/
def get_norm_intensity_matrix (img : List (List Rat)) : Except PyErr PyVal := do
  let _max_intensity ← pymax img.flatten
  pure (.dataFrame (normIntensityMatrix img))

/-- Unweighted centroid coordinate of a coordinate list (the mean of the
projections), as computed by `skimage.measure.regionprops`. -/
def centroidCoord (coords : List (Nat × Nat)) (proj : Nat × Nat → Nat) : Rat :=
  ((coords.map (fun p => ((proj p : Int) : Rat))).sum) / (coords.length : Rat)

/-- Model of `regionprops(labeled_foreground, img)` for a 0/1 label image: the single
region labelled `1` is the full foreground coordinate set; with an empty
foreground the region list is empty. -/
def regionprops1 (fg : List (Nat × Nat)) : List (List (Nat × Nat)) :=
  if fg.isEmpty then [] else [fg]

/-- Pure value of `get_max_intensity_region_table` (meaningful whenever the
image is non-empty): pixel count, truncated centre of mass and maximum
intensity of the region of pixels brighter than `max - 1`. -/
def maxIntensityRegionTableVal (img : List (List Rat)) : PyVal :=
  let max_intensity := listMax img.flatten
  let fg := coordsWhere (fun v => max_intensity - 1 < v) img
  let p0 := (regionprops1 fg).headD []
  .dict [("nb pixels", .list [.int p0.length]),
         ("center of mass", .list [.tup
            (.int (centroidCoord p0 Prod.fst).floor)
            (.int (centroidCoord p0 Prod.snd).floor)]),
         ("max intensity", .list [.rat max_intensity])]

/-- Function `get_max_intensity_region_table`: thresholds the image one unit below its
maximum, labels the brighter pixels as foreground, and reports the pixel
count, centre of mass (`int()` truncation; the coordinates are non-negative,
so truncation is the floor) and maximum intensity of that region. -/
def get_max_intensity_region_table (img : List (List Rat)) :
    Except PyErr PyVal := do
  let max_intensity ← pymax img.flatten
  let threshold_value := max_intensity - 1
  let fg := coordsWhere (fun v => threshold_value < v) img
  let properties := regionprops1 fg
  let p0 ← pyGet properties 0
  let nb_pixels := p0.length
  pure (.dict [("nb pixels", .list [.int nb_pixels]),
    ("center of mass", .list [.tup
      (.int (centroidCoord p0 Prod.fst).floor)
      (.int (centroidCoord p0 Prod.snd).floor)]),
    ("max intensity", .list [.rat max_intensity])])

/-- Function `get_intensity_plot`: pixel-value profiles of the mid vertical, mid
horizontal and the two diagonal Bresenham segments, each paired with its
centered x axis, in the dictionary insertion order of the source.  The
plotting block of the source is commented out there; only `fig_data` is
built. -/
def get_intensity_plot (img : List (List Rat)) : PyVal :=
  let xmax := img.length - 1
  let ymax := (img.headD []).length - 1
  let xmid := roundHalfEven ((xmax : Rat) / 2)
  let ymid := roundHalfEven ((ymax : Rat) / 2)
  let v_seg := get_pixel_values_of_line img 0 ymid (xmax : Int) ymid
  let h_seg := get_pixel_values_of_line img xmid 0 xmid (ymax : Int)
  let diagUD := get_pixel_values_of_line img 0 0 (xmax : Int) (ymax : Int)
  let diagDU := get_pixel_values_of_line img (xmax : Int) 0 0 (ymax : Int)
  .dict [("x_axis_V_seg", .list ((get_x_axis v_seg).map PyVal.int)),
         ("y_axis_V_seg", .list (v_seg.map PyVal.rat)),
         ("x_axis_H_seg", .list ((get_x_axis h_seg).map PyVal.int)),
         ("y_axis_H_seg", .list (h_seg.map PyVal.rat)),
         ("x_axis_diagUD", .list ((get_x_axis diagUD).map PyVal.int)),
         ("y_axis_diagUD", .list (diagUD.map PyVal.rat)),
         ("x_axis_diagDU", .list ((get_x_axis diagDU).map PyVal.int)),
         ("y_axis_diagDU", .list (diagDU.map PyVal.rat))]

/-- The nine sampled intensities of `get_profile_statistics_table`:
`img[xx, yy].flatten()` for `xx, yy = np.meshgrid([0, s0 // 2, -1],
[0, s1 // 2, -1])`; with the default xy indexing the flattened entry
`(i, j)` is `img[a[j], b[i]]`, so the first list index varies fastest. -/
def profileGrid (img : List (List Rat)) : List Rat :=
  let s0 := img.length
  let s1 := (img.headD []).length
  let rIdx : List Int := [0, (s0 / 2 : Nat), -1]
  let cIdx : List Int := [0, (s1 / 2 : Nat), -1]
  (cIdx.map (fun bi => rIdx.map (fun aj => pyIndex2 img aj bi))).flatten

/-- The fixed location labels of the profile-statistics table; the middle
entry interpolates the row-major first coordinates of the maximum. -/
def profileLocations (x_index y_index : Nat) : List String :=
  ["top-left corner", "upper-middle pixel", "top-right corner",
   "left-middle pixel",
   "maximum found at [" ++ toString x_index ++ ", " ++ toString y_index ++ "]",
   "right-middle pixel", "bottom-left corner", "bottom-middle pixel",
   "bottom-right corner"]

/-- Pure value of `get_profile_statistics_table` (meaningful whenever the
image is non-empty).  As in the source, the relative intensities are
computed from the already-rounded `max_intensities` and rounded a second
time, and both centre entries are overwritten only afterwards. -/
def profileStatTableVal (img : List (List Rat)) : PyVal :=
  let max_intensity := listMax img.flatten
  let first := (coordsWhere (fun v => v = max_intensity) img).headD (0, 0)
  let max_intensities := (profileGrid img).map npAround2
  let max_intensities_relative :=
    max_intensities.map (fun v => npAround2 (v / max_intensity))
  let max_intensities := max_intensities.set 4 max_intensity
  let max_intensities_relative := max_intensities_relative.set 4 1
  .dict [("location", .list ((profileLocations first.1 first.2).map PyVal.str)),
         ("intensity", .list (max_intensities.map PyVal.rat)),
         ("intensity relative to max",
            .list (max_intensities_relative.map PyVal.rat))]

/-- Function `get_profile_statistics_table`: intensities of nine reference
pixels and their ratio over the maximum.  The intensities are the grid
values rounded by `np.around(..., 2)`; the relative intensities divide
these already-rounded values by the maximum and round again (double
rounding, as in the source); only then are the centre entries overwritten
with the exact maximum and `1.0`.  The location of the first maximum
(row-major order, as `np.where` enumerates) is interpolated into the middle
label. -/
def get_profile_statistics_table (img : List (List Rat)) :
    Except PyErr PyVal := do
  let max_intensity ← pymax img.flatten
  let occurrences := coordsWhere (fun v => v = max_intensity) img
  let first ← pyGet occurrences 0
  let max_intensities := (profileGrid img).map npAround2
  let max_intensities_relative :=
    max_intensities.map (fun v => npAround2 (v / max_intensity))
  let max_intensities := max_intensities.set 4 max_intensity
  let max_intensities_relative := max_intensities_relative.set 4 1
  pure (.dict
    [("location", .list ((profileLocations first.1 first.2).map PyVal.str)),
     ("intensity", .list (max_intensities.map PyVal.rat)),
     ("intensity relative to max",
        .list (max_intensities_relative.map PyVal.rat))])

/-! ## FieldHomogeneityAnalysis -/

/-- The data requirement declared by `FieldHomogeneityAnalysis.__init__`. -/
def fhImageRequirement : Requirement :=
  { name := "image",
    description := "An image with lines as a numpy array",
    data_type := "np.ndarray", units := none, optional := false,
    default := none }

/-- The two metadata requirements declared by
`FieldHomogeneityAnalysis.__init__`, in declaration order. -/
def fhMetadataRequirements : List Requirement :=
  [{ name := "bitDepth", description := "Camera bitDepth",
     data_type := "Tuple[float, float]", units := some "bits",
     optional := true, default := none },
   { name := "threshold", description := "Threshold for saturation",
     data_type := "int", units := none, optional := true,
     default := some (.intVal 10) }]

/-- The state of a freshly constructed `FieldHomogeneityAnalysis`: the three
requirements declared, nothing bound, empty output. -/
def fhInitState : AnalysisState :=
  { output_description := "This analysis returns...",
    data_requirements := [fhImageRequirement],
    metadata_requirements := fhMetadataRequirements,
    data_bindings := [], metadata_bindings := [], output := [] }

/-- The constructor of `FieldHomogeneityAnalysis`, expressed through the
registry operations: starting from an empty instance it declares "image",
"bitDepth" and "threshold". -/
def fhConstruct : Except PyErr AnalysisState := do
  let s : AnalysisState :=
    { output_description := "This analysis returns...",
      data_requirements := [], metadata_requirements := [],
      data_bindings := [], metadata_bindings := [], output := [] }
  let s ← add_data_requirement s fhImageRequirement
  let s ← add_metadata_requirement s (fhMetadataRequirements.getD 0
    fhImageRequirement)
  let s ← add_metadata_requirement s (fhMetadataRequirements.getD 1
    fhImageRequirement)
  pure s

/-- The four tables appended by a successful `FieldHomogeneityAnalysis.run`,
in append order, with the payload of each expressed through the pure value
functions. -/
def fhRunTables (img : List (List Rat)) : List SchemaObject :=
  [.table ⟨"max_intensity_region_table", "Dataframe containing coordinates",
      maxIntensityRegionTableVal img⟩,
   .table ⟨"norm_intensity_data", "Dataframe containing coordinates",
      .dataFrame (normIntensityMatrix img)⟩,
   .table ⟨"intensity_plot_data", "Dataframe containing coordinates",
      get_intensity_plot img⟩,
   .table ⟨"profile_stat_table", "Dataframe containing coordinates",
      profileStatTableVal img⟩]

/-- Method `FieldHomogeneityAnalysis.run`: aborts with `False` when any requirement
is unmet; otherwise reads the bound image, computes the four tables (the
saturation check of the source is commented out there) and appends them to
the output in computation order, returning `True`.  A non-array binding
would make the numpy calls fail, modelled as a `TypeError`. -/
def fhRun (s : AnalysisState) : Except PyErr (Bool × AnalysisState) :=
  if (list_unmet_requirements s).length ≠ 0 then .ok (false, s)
  else do
    let image ← get_data_values s "image"
    let img ← match image with
      | .array2D m => Except.ok m
      | _ => Except.error (.typeError "image value is not a 2D numpy array")
    let norm_intensity_data ← get_norm_intensity_matrix img
    let max_intensity_region_table ← get_max_intensity_region_table img
    let intensity_plot_data := get_intensity_plot img
    let profile_stat_table ← get_profile_statistics_table img
    let s := { s with output := s.output ++
      [SchemaObject.table ⟨"max_intensity_region_table",
        "Dataframe containing coordinates", max_intensity_region_table⟩] }
    let s := { s with output := s.output ++
      [SchemaObject.table ⟨"norm_intensity_data",
        "Dataframe containing coordinates", norm_intensity_data⟩] }
    let s := { s with output := s.output ++
      [SchemaObject.table ⟨"intensity_plot_data",
        "Dataframe containing coordinates", intensity_plot_data⟩] }
    let s := { s with output := s.output ++
      [SchemaObject.table ⟨"profile_stat_table",
        "Dataframe containing coordinates", profile_stat_table⟩] }
    pure (true, s)

/-! ## Supporting lemmas -/

theorem lookupStr_dictSet_self {α : Type} (d : List (String × α)) (k : String)
    (v : α) : lookupStr (dictSet d k v) k = some v := by
  induction d with
  | nil => simp [dictSet, lookupStr]
  | cons kv rest ih =>
    by_cases h : kv.1 = k
    · simp [dictSet, h, lookupStr]
    · simp [dictSet, h, lookupStr, ih]

theorem getD_map {α β : Type} (f : α → β) (l : List α) (i : Nat) (d : α) :
    (l.map f).getD i (f d) = f (l.getD i d) := by
  induction l generalizing i with
  | nil => simp
  | cons a t ih => cases i <;> simp [ih]

theorem rect_flatten_length {α : Type} (m : List (List α)) (c : Nat)
    (h : ∀ r ∈ m, r.length = c) : m.flatten.length = m.length * c := by
  induction m with
  | nil => simp
  | cons r t ih =>
    rw [List.flatten_cons, List.length_append, h r (by simp),
      ih (fun s hs => h s (by simp [hs])), List.length_cons]
    ring

theorem unflatten_flatten {α : Type} (m : List (List α)) (c : Nat)
    (h : ∀ r ∈ m, r.length = c) : unflatten m.flatten m.length c = m := by
  induction m with
  | nil => simp [unflatten]
  | cons r t ih =>
    have hr : r.length = c := h r (by simp)
    rw [List.length_cons, List.flatten_cons, unflatten, ← hr,
      List.take_left, List.drop_left, hr,
      ih (fun s hs => h s (by simp [hs]))]

theorem flatten_ne_nil_of_rect {α : Type} (m : List (List α)) (c : Nat)
    (hm : m ≠ []) (h : ∀ r ∈ m, r.length = c) (hc : c ≠ 0) :
    m.flatten ≠ [] := by
  cases m with
  | nil => exact absurd rfl hm
  | cons r t =>
    have hr : r.length = c := h r (by simp)
    intro hcon
    rw [List.flatten_cons] at hcon
    rcases List.append_eq_nil.mp hcon with ⟨h1, _⟩
    rw [h1] at hr
    exact hc hr.symm

theorem foldl_max_mem (xs : List Rat) (a : Rat) : xs.foldl max a ∈ a :: xs := by
  induction xs generalizing a with
  | nil => simp
  | cons x t ih =>
    have h2 := ih (max a x)
    rw [List.foldl_cons]
    rcases List.mem_cons.mp h2 with h3 | h3
    · rcases max_choice a x with h4 | h4 <;> rw [h3, h4] <;> simp
    · simp [h3]

theorem listMax_mem (l : List Rat) (h : l ≠ []) : listMax l ∈ l := by
  cases l with
  | nil => exact absurd rfl h
  | cons x xs => simpa [listMax] using foldl_max_mem xs x

theorem rowCoords_ne_nil (p : Rat → Bool) (i : Nat) (row : List Rat) (v : Rat)
    (hv : v ∈ row) (hp : p v = true) :
    ∀ j, rowCoords p i j row ≠ [] := by
  induction row with
  | nil => cases hv
  | cons w ws ih =>
    intro j
    by_cases hw : p w = true
    · simp [rowCoords, hw]
    · rcases List.mem_cons.mp hv with rfl | hv2
      · exact absurd hp hw
      · simpa [rowCoords, hw] using ih hv2 (j + 1)

theorem coordsWhereFrom_ne_nil (p : Rat → Bool) (img : List (List Rat))
    (v : Rat) (hv : v ∈ img.flatten) (hp : p v = true) :
    ∀ i, coordsWhereFrom p i img ≠ [] := by
  induction img with
  | nil => simp at hv
  | cons row rest ih =>
    intro i
    rw [List.flatten_cons] at hv
    rcases List.mem_append.mp hv with h | h
    · intro hcon
      rcases List.append_eq_nil.mp hcon with ⟨h1, _⟩
      exact rowCoords_ne_nil p i row v h hp 0 h1
    · intro hcon
      rcases List.append_eq_nil.mp hcon with ⟨_, h2⟩
      exact ih h (i + 1) h2

theorem coordsWhere_ne_nil (p : Rat → Bool) (img : List (List Rat)) (v : Rat)
    (hv : v ∈ img.flatten) (hp : p v = true) : coordsWhere p img ≠ [] :=
  coordsWhereFrom_ne_nil p img v hv hp 0

theorem pymax_ok (l : List Rat) (h : l ≠ []) : pymax l = .ok (listMax l) := by
  cases l with
  | nil => exact absurd rfl h
  | cons x xs => rfl

theorem pyGet_zero {α : Type} (l : List α) (d : α) (h : l ≠ []) :
    pyGet l 0 = .ok (l.headD d) := by
  cases l with
  | nil => exact absurd rfl h
  | cons x xs => rfl

theorem except_bind_ok {ε α β : Type} (a : α) (f : α → Except ε β) :
    (Except.ok a : Except ε α) >>= f = f a := rfl

theorem except_bind_error {ε α β : Type} (e : ε) (f : α → Except ε β) :
    (Except.error e : Except ε α) >>= f = Except.error e := rfl

theorem except_pure_eq_ok {ε α : Type} (a : α) :
    (pure a : Except ε α) = Except.ok a := rfl

theorem get_norm_intensity_matrix_ok (img : List (List Rat))
    (h : img.flatten ≠ []) :
    get_norm_intensity_matrix img =
      .ok (.dataFrame (normIntensityMatrix img)) := by
  unfold get_norm_intensity_matrix
  rw [pymax_ok _ h, except_bind_ok]
  rfl

theorem get_max_intensity_region_table_ok (img : List (List Rat))
    (h : img.flatten ≠ []) :
    get_max_intensity_region_table img =
      .ok (maxIntensityRegionTableVal img) := by
  have hfg : coordsWhere (fun v =>
      decide (listMax img.flatten - 1 < v)) img ≠ [] := by
    refine coordsWhere_ne_nil _ _ (listMax img.flatten) (listMax_mem _ h) ?_
    simp
  unfold get_max_intensity_region_table maxIntensityRegionTableVal
  rw [pymax_ok _ h, except_bind_ok]
  have hre : regionprops1 (coordsWhere (fun v =>
      decide (listMax img.flatten - 1 < v)) img) =
      [coordsWhere (fun v => decide (listMax img.flatten - 1 < v)) img] := by
    simp [regionprops1, List.isEmpty_iff, hfg]
  simp only [hre]
  rw [show pyGet [coordsWhere (fun v =>
      decide (listMax img.flatten - 1 < v)) img] 0 =
      .ok (coordsWhere (fun v =>
        decide (listMax img.flatten - 1 < v)) img) from rfl, except_bind_ok]
  rfl

theorem get_profile_statistics_table_ok (img : List (List Rat))
    (h : img.flatten ≠ []) :
    get_profile_statistics_table img = .ok (profileStatTableVal img) := by
  have hocc : coordsWhere (fun v =>
      decide (v = listMax img.flatten)) img ≠ [] :=
    coordsWhere_ne_nil _ _ (listMax img.flatten) (listMax_mem _ h) (by simp)
  unfold get_profile_statistics_table profileStatTableVal
  simp only [pymax_ok _ h, except_bind_ok,
    pyGet_zero _ ((0, 0) : Nat × Nat) hocc]
  rfl

theorem mask_ok_of_bool (a : NDArray) (nm ds iu siu : Option String)
    (h2 : a.ndim = 2) (hd : a.dtype = Dtype.bool) :
    numpy_to_inlined_mask a nm ds iu siu =
      .ok ⟨nm, ds, iu, siu, a.data.map (fun v => decide (v ≠ 0)),
        ⟨a.shape.getD 0 0⟩, ⟨a.shape.getD 1 0⟩⟩ := by
  unfold numpy_to_inlined_mask
  rw [if_neg (by simp [h2])]
  simp [hd]

theorem mask_ok_of_uint8 (a : NDArray) (nm ds iu siu : Option String)
    (h2 : a.ndim = 2) (hd : a.dtype = Dtype.uint8) :
    numpy_to_inlined_mask a nm ds iu siu =
      .ok ⟨nm, ds, iu, siu, a.data.map (fun v => decide (v ≠ 0)),
        ⟨a.shape.getD 0 0⟩, ⟨a.shape.getD 1 0⟩⟩ := by
  have hcast : ∀ v : Rat,
      decide ((if v ≠ 0 then (1 : Rat) else 0) ≠ 0) = decide (v ≠ 0) := by
    intro v
    by_cases h : v = 0 <;> simp [h]
  unfold numpy_to_inlined_mask
  rw [if_neg (by simp [h2])]
  simp only [hd, if_pos]
  simp [astypeBool, List.map_map, Function.comp, hcast]

theorem mask_error_of_other_dtype (a : NDArray) (nm ds iu siu : Option String)
    (h2 : a.ndim = 2) (hb : a.dtype ≠ Dtype.bool) (hu : a.dtype ≠ Dtype.uint8) :
    numpy_to_inlined_mask a nm ds iu siu =
      .error (.valueError "Input array should be of type bool") := by
  unfold numpy_to_inlined_mask
  rw [if_neg (by simp [h2])]
  simp [hb, hu]

theorem fh_list_unmet_empty (od : String) (db mb : List (String × PyData))
    (out : List SchemaObject) (v : PyData)
    (hbind : lookupStr db "image" = some v) :
    list_unmet_requirements
      ⟨od, [fhImageRequirement], fhMetadataRequirements, db, mb, out⟩ = [] := by
  simp [list_unmet_requirements, fhImageRequirement, fhMetadataRequirements,
    hbind]

theorem fhRun_ok_general (od : String) (db mb : List (String × PyData))
    (out : List SchemaObject) (m : List (List Rat)) (c : Nat)
    (hbind : lookupStr db "image" = some (.array2D m))
    (hm : m ≠ []) (hrect : ∀ r ∈ m, r.length = c) (hc : c ≠ 0) :
    fhRun ⟨od, [fhImageRequirement], fhMetadataRequirements, db, mb, out⟩ =
      .ok (true, ⟨od, [fhImageRequirement], fhMetadataRequirements, db, mb,
        out ++ fhRunTables m⟩) := by
  have hfl : m.flatten ≠ [] := flatten_ne_nil_of_rect m c hm hrect hc
  have hunmet := fh_list_unmet_empty od db mb out _ hbind
  have hdget : get_data_values
      ⟨od, [fhImageRequirement], fhMetadataRequirements, db, mb, out⟩
      "image" = .ok (.array2D m) := by
    simp [get_data_values, hbind]
  unfold fhRun
  rw [hunmet]
  rw [if_neg (by simp)]
  rw [hdget, except_bind_ok]
  show (get_norm_intensity_matrix m >>= _) = _
  rw [get_norm_intensity_matrix_ok m hfl, except_bind_ok,
    get_max_intensity_region_table_ok m hfl, except_bind_ok,
    get_profile_statistics_table_ok m hfl, except_bind_ok]
  simp only [fhRunTables, List.append_assoc, List.cons_append, List.nil_append]
  rfl

/-! ## Claims -/

/-- C1 (amended): `validate_requirements()` logs and returns `True`
unconditionally; it does not consult the unmet-requirements list (its body
is a stub carrying a TODO). -/
theorem validate_requirements_always_true (s : AnalysisState) :
    validate_requirements s = true := rfl

/-- C1 counterexample: on a freshly constructed `FieldHomogeneityAnalysis`
the unmet-requirements list is `["image"]`, hence non-empty, yet
`validate_requirements()` still returns `True`; its boolean result therefore
does not equal the emptiness of `list_unmet_requirements()`. -/
theorem validate_requirements_ignores_unmet :
    validate_requirements fhInitState = true ∧
    (list_unmet_requirements fhInitState).isEmpty = false :=
  ⟨rfl, rfl⟩

/-- C2: for every 2D boolean array (any rectangular bool matrix `m` with `c`
columns per row), `numpy_to_inlined_mask` succeeds with `y = row count`,
`x = column count`, a buffer that is exactly the row-major flattening of the
matrix with length `rows * cols`, and unflattening the buffer in row-major
order with those sizes reconstructs the matrix exactly. -/
theorem mask_bool_roundtrip (m : List (List Bool)) (c : Nat)
    (h : ∀ r ∈ m, r.length = c) (nm ds iu siu : Option String) :
    numpy_to_inlined_mask (fromBoolMatrix m c) nm ds iu siu =
      .ok ⟨nm, ds, iu, siu, m.flatten, ⟨m.length⟩, ⟨c⟩⟩ ∧
    m.flatten.length = m.length * c ∧
    unflatten m.flatten m.length c = m := by
  have hrow : ∀ row : List Bool,
      (row.map (fun b => if b then (1 : Rat) else 0)).map
        (fun v => decide (v ≠ 0)) = row := by
    intro row
    rw [List.map_map]
    conv_rhs => rw [← List.map_id row]
    refine List.map_congr_left ?_
    intro b _
    cases b <;> decide
  have hdata :
      ((m.map (fun row =>
        row.map (fun b => if b then (1 : Rat) else 0))).flatten).map
          (fun v => decide (v ≠ 0)) = m.flatten := by
    rw [List.map_flatten, List.map_map]
    congr 1
    conv_rhs => rw [← List.map_id m]
    refine List.map_congr_left ?_
    intro row _
    simpa [Function.comp] using hrow row
  refine ⟨?_, rect_flatten_length m c h, unflatten_flatten m c h⟩
  rw [mask_ok_of_bool (fromBoolMatrix m c) nm ds iu siu
    (by simp [NDArray.ndim, fromBoolMatrix]) rfl]
  simp only [fromBoolMatrix]
  rw [hdata]
  rfl

/-- Witness for C2 at the concrete matrix `[[T, F], [F, T]]`. -/
theorem mask_bool_roundtrip_witness :
    numpy_to_inlined_mask (fromBoolMatrix [[true, false], [false, true]] 2)
      none none none none =
      .ok ⟨none, none, none, none, [[true, false], [false, true]].flatten,
        ⟨2⟩, ⟨2⟩⟩ ∧
    ([[true, false], [false, true]] : List (List Bool)).flatten.length =
      2 * 2 ∧
    unflatten ([[true, false], [false, true]] : List (List Bool)).flatten 2 2 =
      [[true, false], [false, true]] :=
  mask_bool_roundtrip [[true, false], [false, true]] 2 (by decide)
    none none none none

/-- C3: for every array whose dimensionality is neither 2 nor 5,
`numpy_to_inlined_image` fails with the unsupported-dimensionality error
(`NotImplementedError` in the source; the spec taxonomy calls it
`UnsupportedDimensionality`), whose message interpolates the actual
dimensionality of the offending array; no image is returned. -/
theorem image_unsupported_dimensionality (a : NDArray)
    (nm ds iu siu : Option String) (h2 : a.ndim ≠ 2) (h5 : a.ndim ≠ 5) :
    numpy_to_inlined_image a nm ds iu siu =
      .error (.notImplementedError (unsupportedDimMsg a.ndim)) := by
  unfold numpy_to_inlined_image
  rw [if_neg h5, if_neg h2]

/-- Witness for C3 at a concrete 3D array. -/
theorem image_unsupported_dimensionality_witness :
    numpy_to_inlined_image ⟨Dtype.float64, [2, 2, 2], List.replicate 8 0⟩
      none none none none =
      .error (.notImplementedError (unsupportedDimMsg 3)) :=
  image_unsupported_dimensionality ⟨Dtype.float64, [2, 2, 2], List.replicate 8 0⟩
    none none none none (by decide) (by decide)

/-- C4: a 5D array yields an `Image5D` whose (t, z, y, x, c) descriptors are
`shape[0..4]` in that order, a 2D array yields an `Image2D` with
(y, x) = `shape[0..1]`; in both cases the buffer is the row-major buffer of
the input and its length is the product of the declared axis sizes (using
the numpy invariant that the buffer has one entry per grid position). -/
theorem image_axis_sizes (a : NDArray) (nm ds iu siu : Option String)
    (hwf : a.data.length = a.shape.prod) :
    (∀ t z y x c, a.shape = [t, z, y, x, c] →
      numpy_to_inlined_image a nm ds iu siu =
        .ok (.image5D ⟨nm, ds, iu, siu, a.data, ⟨t⟩, ⟨z⟩, ⟨y⟩, ⟨x⟩, ⟨c⟩⟩) ∧
      a.data.length = t * z * y * x * c) ∧
    (∀ y x, a.shape = [y, x] →
      numpy_to_inlined_image a nm ds iu siu =
        .ok (.image2D ⟨nm, ds, iu, siu, a.data, ⟨y⟩, ⟨x⟩⟩) ∧
      a.data.length = y * x) := by
  constructor
  · intro t z y x c hsh
    have hnd : a.ndim = 5 := by simp [NDArray.ndim, hsh]
    constructor
    · unfold numpy_to_inlined_image
      rw [if_pos hnd]
      simp [hsh]
    · rw [hwf, hsh]
      simp [List.prod_cons, List.prod_nil]
      ring
  · intro y x hsh
    have hnd : a.ndim = 2 := by simp [NDArray.ndim, hsh]
    constructor
    · unfold numpy_to_inlined_image
      rw [if_neg (by simp [hnd]), if_pos hnd]
      simp [hsh]
    · rw [hwf, hsh]
      simp [List.prod_cons, List.prod_nil]

/-- Witness for C4 at a concrete 5D array and a concrete 2D array. -/
theorem image_axis_sizes_witness :
    (numpy_to_inlined_image ⟨Dtype.float64, [1, 2, 1, 2, 1], [5, 6, 7, 8]⟩
        none none none none =
      .ok (.image5D ⟨none, none, none, none, [5, 6, 7, 8],
        ⟨1⟩, ⟨2⟩, ⟨1⟩, ⟨2⟩, ⟨1⟩⟩) ∧
      ([5, 6, 7, 8] : List Rat).length = 1 * 2 * 1 * 2 * 1) ∧
    (numpy_to_inlined_image ⟨Dtype.int32, [2, 3], [1, 2, 3, 4, 5, 6]⟩
        none none none none =
      .ok (.image2D ⟨none, none, none, none, [1, 2, 3, 4, 5, 6], ⟨2⟩, ⟨3⟩⟩) ∧
      ([1, 2, 3, 4, 5, 6] : List Rat).length = 2 * 3) :=
  ⟨(image_axis_sizes ⟨Dtype.float64, [1, 2, 1, 2, 1], [5, 6, 7, 8]⟩
      none none none none (by decide)).1 1 2 1 2 1 rfl,
   (image_axis_sizes ⟨Dtype.int32, [2, 3], [1, 2, 3, 4, 5, 6]⟩
      none none none none (by decide)).2 2 3 rfl⟩

/-- C5: on 2D input, `numpy_to_inlined_mask` accepts bool arrays as they
are; accepts `uint8` arrays, coercing them to bool (nonzero becomes true, so
values in `{0, 1}` coerce exactly); and fails with the dtype error
(`ValueError "Input array should be of type bool"`) for every other
dtype. -/
theorem mask_dtype_handling (a : NDArray) (nm ds iu siu : Option String)
    (h2 : a.ndim = 2) :
    (a.dtype = Dtype.bool → numpy_to_inlined_mask a nm ds iu siu =
      .ok ⟨nm, ds, iu, siu, a.data.map (fun v => decide (v ≠ 0)),
        ⟨a.shape.getD 0 0⟩, ⟨a.shape.getD 1 0⟩⟩) ∧
    (a.dtype = Dtype.uint8 → numpy_to_inlined_mask a nm ds iu siu =
      .ok ⟨nm, ds, iu, siu, a.data.map (fun v => decide (v ≠ 0)),
        ⟨a.shape.getD 0 0⟩, ⟨a.shape.getD 1 0⟩⟩) ∧
    (a.dtype ≠ Dtype.bool → a.dtype ≠ Dtype.uint8 →
      numpy_to_inlined_mask a nm ds iu siu =
        .error (.valueError "Input array should be of type bool")) :=
  ⟨fun hd => mask_ok_of_bool a nm ds iu siu h2 hd,
   fun hd => mask_ok_of_uint8 a nm ds iu siu h2 hd,
   fun hb hu => mask_error_of_other_dtype a nm ds iu siu h2 hb hu⟩

/-- Witness for C5: a bool array, a `uint8` array with values in `{0, 1}`,
and an `int32` array, all 2D and concrete. -/
theorem mask_dtype_handling_witness :
    (numpy_to_inlined_mask ⟨Dtype.bool, [1, 2], [0, 1]⟩ none none none none =
      .ok ⟨none, none, none, none,
        ([0, 1] : List Rat).map (fun v => decide (v ≠ 0)), ⟨1⟩, ⟨2⟩⟩) ∧
    (numpy_to_inlined_mask ⟨Dtype.uint8, [1, 2], [0, 1]⟩ none none none none =
      .ok ⟨none, none, none, none,
        ([0, 1] : List Rat).map (fun v => decide (v ≠ 0)), ⟨1⟩, ⟨2⟩⟩) ∧
    (numpy_to_inlined_mask ⟨Dtype.int32, [1, 2], [0, 1]⟩ none none none none =
      .error (.valueError "Input array should be of type bool")) :=
  ⟨(mask_dtype_handling ⟨Dtype.bool, [1, 2], [0, 1]⟩ none none none none
      (by decide)).1 rfl,
   (mask_dtype_handling ⟨Dtype.uint8, [1, 2], [0, 1]⟩ none none none none
      (by decide)).2.1 rfl,
   (mask_dtype_handling ⟨Dtype.int32, [1, 2], [0, 1]⟩ none none none none
      (by decide)).2.2 (by decide) (by decide)⟩

/-- C6: `dict_to_inlined_table` produces exactly one named column per
dictionary entry, in the iteration order of the dictionary, each holding
the value sequence of that entry unchanged; it is total, so no row-count
equality between columns is ever checked (ragged inputs convert as well). -/
theorem table_one_column_per_entry {α : Type} (d : List (String × List α))
    (nm ds : Option String) (i : Nat) (dflt : String × List α) :
    (dict_to_inlined_table d nm ds).columns.length = d.length ∧
    ((dict_to_inlined_table d nm ds).columns.getD i ⟨dflt.1, dflt.2⟩).name =
      (d.getD i dflt).1 ∧
    ((dict_to_inlined_table d nm ds).columns.getD i ⟨dflt.1, dflt.2⟩).values =
      (d.getD i dflt).2 := by
  have hg := getD_map
    (fun kv : String × List α => (⟨kv.1, kv.2⟩ : DictColumn α)) d i dflt
  exact ⟨by simp [dict_to_inlined_table],
    by simp only [dict_to_inlined_table]; rw [hg],
    by simp only [dict_to_inlined_table]; rw [hg]⟩

/-- C7: whenever the unmet-requirements list of the analysis is non-empty,
`FieldHomogeneityAnalysis.run` returns `False` (no exception) and leaves the
whole state, in particular the output sequence, unchanged. -/
theorem fhRun_unmet_returns_false (s : AnalysisState)
    (h : list_unmet_requirements s ≠ []) : fhRun s = .ok (false, s) := by
  unfold fhRun
  rw [if_pos (fun h0 => h (List.length_eq_zero.mp h0))]

/-- Witness for C7: the freshly constructed `FieldHomogeneityAnalysis` has
the non-optional "image" requirement unbound, and `run` returns `False`
leaving the state unchanged. -/
theorem fhRun_unmet_returns_false_witness :
    fhRun fhInitState = .ok (false, fhInitState) ∧
    list_unmet_requirements fhInitState = ["image"] :=
  ⟨fhRun_unmet_returns_false fhInitState (by decide), rfl⟩

/-- The C8 counterexample state: a `FieldHomogeneityAnalysis` whose "image"
requirement is bound to an empty 2D array (shape `(0, c)`), so that no
requirement is unmet. -/
def fhEmptyImageState : AnalysisState :=
  { fhInitState with data_bindings := [("image", PyData.array2D [])] }

/-- C8 counterexample: with "image" bound to an empty 2D array the
unmet-requirements list is empty, yet `run` does not return `True` and
appends nothing: `np.max` raises `ValueError` on the zero-size buffer. -/
theorem fhRun_empty_image_raises :
    list_unmet_requirements fhEmptyImageState = [] ∧
    fhRun fhEmptyImageState = .error (.valueError
      "zero-size array to reduction operation maximum which has no identity") :=
  ⟨rfl, rfl⟩

/-- C8 (amended): for every `FieldHomogeneityAnalysis` state whose "image"
requirement is bound to a non-empty 2D numeric array (at least one row and
one column), the unmet-requirements list is empty and `run` returns `True`,
appending exactly four tables to the output sequence in computation order —
max_intensity_region_table, norm_intensity_data, intensity_plot_data,
profile_stat_table — with the previous output kept as an unchanged prefix
and nothing else modified. -/
theorem fhRun_appends_four_tables (od : String)
    (db mb : List (String × PyData)) (out : List SchemaObject)
    (m : List (List Rat)) (c : Nat)
    (hbind : lookupStr db "image" = some (.array2D m))
    (hm : m ≠ []) (hrect : ∀ r ∈ m, r.length = c) (hc : c ≠ 0) :
    list_unmet_requirements
      ⟨od, [fhImageRequirement], fhMetadataRequirements, db, mb, out⟩ = [] ∧
    fhRun ⟨od, [fhImageRequirement], fhMetadataRequirements, db, mb, out⟩ =
      .ok (true, ⟨od, [fhImageRequirement], fhMetadataRequirements, db, mb,
        out ++
          [SchemaObject.table ⟨"max_intensity_region_table",
             "Dataframe containing coordinates",
             maxIntensityRegionTableVal m⟩,
           SchemaObject.table ⟨"norm_intensity_data",
             "Dataframe containing coordinates",
             PyVal.dataFrame (normIntensityMatrix m)⟩,
           SchemaObject.table ⟨"intensity_plot_data",
             "Dataframe containing coordinates", get_intensity_plot m⟩,
           SchemaObject.table ⟨"profile_stat_table",
             "Dataframe containing coordinates", profileStatTableVal m⟩]⟩) :=
  ⟨fh_list_unmet_empty od db mb out _ hbind,
   by simpa [fhRunTables] using
     fhRun_ok_general od db mb out m c hbind hm hrect hc⟩

/-- Witness for C8 (amended) at the concrete image `[[1, 2], [3, 4]]`. -/
theorem fhRun_appends_four_tables_witness :
    list_unmet_requirements
      ⟨"This analysis returns...", [fhImageRequirement],
        fhMetadataRequirements,
        [("image", PyData.array2D [[1, 2], [3, 4]])], [], []⟩ = [] ∧
    fhRun ⟨"This analysis returns...", [fhImageRequirement],
        fhMetadataRequirements,
        [("image", PyData.array2D [[1, 2], [3, 4]])], [], []⟩ =
      .ok (true, ⟨"This analysis returns...", [fhImageRequirement],
        fhMetadataRequirements,
        [("image", PyData.array2D [[1, 2], [3, 4]])], [],
        [] ++
          [SchemaObject.table ⟨"max_intensity_region_table",
             "Dataframe containing coordinates",
             maxIntensityRegionTableVal [[1, 2], [3, 4]]⟩,
           SchemaObject.table ⟨"norm_intensity_data",
             "Dataframe containing coordinates",
             PyVal.dataFrame (normIntensityMatrix [[1, 2], [3, 4]])⟩,
           SchemaObject.table ⟨"intensity_plot_data",
             "Dataframe containing coordinates",
             get_intensity_plot [[1, 2], [3, 4]]⟩,
           SchemaObject.table ⟨"profile_stat_table",
             "Dataframe containing coordinates",
             profileStatTableVal [[1, 2], [3, 4]]⟩]⟩) :=
  fhRun_appends_four_tables "This analysis returns..."
    [("image", PyData.array2D [[1, 2], [3, 4]])] [] [] [[1, 2], [3, 4]] 2
    rfl (by decide) (by decide) (by decide)

/-- C9: registering two classes with the same `__name__` in the same
registry silently overwrites: the later lookup yields the second class, no
error is possible (the operation is total), and the two other registries are
left untouched; this holds for each of the three registries. -/
theorem register_duplicate_name_overwrites (c1 c2 : PyClass) (s : Registries)
    (h : c1.name = c2.name) :
    (lookupStr ((register_image_analysis c2
        (register_image_analysis c1 s).2).2).image c1.name = some c2 ∧
      ((register_image_analysis c2
        (register_image_analysis c1 s).2).2).dataset = s.dataset ∧
      ((register_image_analysis c2
        (register_image_analysis c1 s).2).2).progression = s.progression) ∧
    (lookupStr ((register_dataset_analysis c2
        (register_dataset_analysis c1 s).2).2).dataset c1.name = some c2 ∧
      ((register_dataset_analysis c2
        (register_dataset_analysis c1 s).2).2).image = s.image ∧
      ((register_dataset_analysis c2
        (register_dataset_analysis c1 s).2).2).progression = s.progression) ∧
    (lookupStr ((register_progression_analysis c2
        (register_progression_analysis c1 s).2).2).progression c1.name =
        some c2 ∧
      ((register_progression_analysis c2
        (register_progression_analysis c1 s).2).2).image = s.image ∧
      ((register_progression_analysis c2
        (register_progression_analysis c1 s).2).2).dataset = s.dataset) := by
  refine ⟨⟨?_, rfl, rfl⟩, ⟨?_, rfl, rfl⟩, ⟨?_, rfl, rfl⟩⟩ <;>
    simp only [register_image_analysis, register_dataset_analysis,
      register_progression_analysis, h] <;>
    exact lookupStr_dictSet_self _ _ _

/-- Witness for C9: two distinct classes sharing the name "A" in initially
empty registries. -/
theorem register_duplicate_name_overwrites_witness :
    (lookupStr ((register_image_analysis ⟨"A", 1⟩
        (register_image_analysis ⟨"A", 0⟩ ⟨[], [], []⟩).2).2).image "A" =
        some ⟨"A", 1⟩ ∧
      ((register_image_analysis ⟨"A", 1⟩
        (register_image_analysis ⟨"A", 0⟩ ⟨[], [], []⟩).2).2).dataset = [] ∧
      ((register_image_analysis ⟨"A", 1⟩
        (register_image_analysis ⟨"A", 0⟩
          ⟨[], [], []⟩).2).2).progression = []) ∧
    (lookupStr ((register_dataset_analysis ⟨"A", 1⟩
        (register_dataset_analysis ⟨"A", 0⟩ ⟨[], [], []⟩).2).2).dataset "A" =
        some ⟨"A", 1⟩ ∧
      ((register_dataset_analysis ⟨"A", 1⟩
        (register_dataset_analysis ⟨"A", 0⟩ ⟨[], [], []⟩).2).2).image = [] ∧
      ((register_dataset_analysis ⟨"A", 1⟩
        (register_dataset_analysis ⟨"A", 0⟩
          ⟨[], [], []⟩).2).2).progression = []) ∧
    (lookupStr ((register_progression_analysis ⟨"A", 1⟩
        (register_progression_analysis ⟨"A", 0⟩
          ⟨[], [], []⟩).2).2).progression "A" = some ⟨"A", 1⟩ ∧
      ((register_progression_analysis ⟨"A", 1⟩
        (register_progression_analysis ⟨"A", 0⟩ ⟨[], [], []⟩).2).2).image =
        [] ∧
      ((register_progression_analysis ⟨"A", 1⟩
        (register_progression_analysis ⟨"A", 0⟩ ⟨[], [], []⟩).2).2).dataset =
        []) :=
  register_duplicate_name_overwrites ⟨"A", 0⟩ ⟨"A", 1⟩ ⟨[], [], []⟩ rfl

/-- C10: every 2D `uint8` array (values unrestricted) converts to a mask
with no error; entry `i` of the mask buffer is `true` exactly when entry `i`
of the row-major buffer of the input is nonzero; and all three registration
decorators return the class they receive unchanged. -/
theorem mask_uint8_nonzero_and_decorators (a : NDArray)
    (nm ds iu siu : Option String)
    (hd : a.dtype = Dtype.uint8) (h2 : a.ndim = 2) :
    numpy_to_inlined_mask a nm ds iu siu =
      .ok ⟨nm, ds, iu, siu, a.data.map (fun v => decide (v ≠ 0)),
        ⟨a.shape.getD 0 0⟩, ⟨a.shape.getD 1 0⟩⟩ ∧
    (∀ i, (a.data.map (fun v => decide (v ≠ 0))).getD i false =
      decide (a.data.getD i 0 ≠ 0)) ∧
    (∀ cls regs, (register_image_analysis cls regs).1 = cls ∧
      (register_dataset_analysis cls regs).1 = cls ∧
      (register_progression_analysis cls regs).1 = cls) := by
  refine ⟨mask_ok_of_uint8 a nm ds iu siu h2 hd, ?_, ?_⟩
  · intro i
    have hg := getD_map (fun v => decide (v ≠ 0)) a.data i 0
    simpa using hg
  · intro cls regs
    exact ⟨rfl, rfl, rfl⟩

/-- Witness for C10 at the concrete `uint8` array `[[0, 5], [7, 2]]` (values
outside `{0, 1}`). -/
theorem mask_uint8_nonzero_and_decorators_witness :
    numpy_to_inlined_mask ⟨Dtype.uint8, [2, 2], [0, 5, 7, 2]⟩
      none none none none =
      .ok ⟨none, none, none, none,
        ([0, 5, 7, 2] : List Rat).map (fun v => decide (v ≠ 0)), ⟨2⟩, ⟨2⟩⟩ ∧
    (∀ i, (([0, 5, 7, 2] : List Rat).map
        (fun v => decide (v ≠ 0))).getD i false =
      decide (([0, 5, 7, 2] : List Rat).getD i 0 ≠ 0)) ∧
    (∀ cls regs, (register_image_analysis cls regs).1 = cls ∧
      (register_dataset_analysis cls regs).1 = cls ∧
      (register_progression_analysis cls regs).1 = cls) :=
  mask_uint8_nonzero_and_decorators ⟨Dtype.uint8, [2, 2], [0, 5, 7, 2]⟩
    none none none none rfl (by decide)

end MicroscopeMetrics
